import Mathlib

/-!
Verification of the ProperView listings filter / state-synchronization logic.

This file shallowly embeds the client-side filtering code of the listings page
(`ListingsClient`: `parseFiltersFromSearchParams`, `filtersToQuery`,
`handleFilterChange`, the derived `filteredProperties` memo) and the
view-mode / selection URL synchronization and modal navigation of
`PropertyListings`, and proves the specified properties about them.

Modelling conventions:
* JavaScript numbers are modelled exactly by `JSNum` (NaN, ±Infinity, or an
  exact rational).  Double rounding/overflow is idealized away: values are
  kept as exact rationals.  No claim below depends on rounding.
* `URLSearchParams` is modelled as an ordered list of key/value pairs with
  the `get`/`set`/`delete` semantics of the web API.  Percent-encoding in
  `toString` is abstracted away: serialization round-trips the pair list.
* `toLowerCase` is modelled per-character (faithful on ASCII); full Unicode
  case mapping is abstracted.
-/

namespace ProperView

/-! ## JavaScript whitespace, digits and decimal strings -/

/-- The characters trimmed by `String.prototype.trim` and skipped by
`Number(string)`: ECMAScript WhiteSpace and LineTerminator code points. -/
def jsWhitespaceChar (c : Char) : Bool :=
  c == ' ' || c == '\t' || c == '\n' || c == '\r' || c == '\x0b' || c == '\x0c' ||
  c == '\u00a0' || c == '\u1680' || c == '\u2000' || c == '\u2001' || c == '\u2002' ||
  c == '\u2003' || c == '\u2004' || c == '\u2005' || c == '\u2006' || c == '\u2007' ||
  c == '\u2008' || c == '\u2009' || c == '\u200a' || c == '\u2028' || c == '\u2029' ||
  c == '\u202f' || c == '\u205f' || c == '\u3000' || c == '\ufeff'

/-- Strip leading and trailing JS whitespace from a character list. -/
def trimL (cs : List Char) : List Char :=
  ((cs.dropWhile jsWhitespaceChar).reverse.dropWhile jsWhitespaceChar).reverse

/-- `String.prototype.trim`. -/
def jsTrim (s : String) : String := ⟨trimL s.data⟩

/-- `String.prototype.toLowerCase`, modelled per character (exact on ASCII). -/
def jsToLower (s : String) : String := ⟨s.data.map Char.toLower⟩

/-- Does `needle` occur at the start of `hay`? -/
def leadsWith : List Char → List Char → Bool
  | [], _ => true
  | _ :: _, [] => false
  | a :: as, b :: bs => a == b && leadsWith as bs

/-- Does `needle` occur contiguously somewhere in `hay`? -/
def occursIn (needle : List Char) : List Char → Bool
  | [] => needle.isEmpty
  | c :: rest => leadsWith needle (c :: rest) || occursIn needle rest

/-- `String.prototype.includes`. -/
def jsIncludes (s search : String) : Bool := occursIn search.data s.data

/-- Numeric value of a decimal digit string (base 10, most significant first). -/
def natDigits (cs : List Char) : Nat :=
  cs.foldl (fun a c => 10 * a + (c.toNat - 48)) 0

/-- Structural worker for `natToDec` (`fuel` bounds the recursion depth so
that the definition reduces in the kernel; any `fuel > n` gives the digits). -/
def natToDecAux : Nat → Nat → List Char
  | 0, _ => []
  | fuel + 1, n =>
    if n < 10 then [Char.ofNat (48 + n)]
    else natToDecAux fuel (n / 10) ++ [Char.ofNat (48 + n % 10)]

/-- Decimal digit characters of a natural number, as produced by JS
`String(n)` for a non-negative integer. -/
def natToDec (n : Nat) : List Char := natToDecAux (n + 1) n

/-- Value of a hexadecimal digit character (99 when not a hex digit). -/
def hexVal (c : Char) : Nat :=
  if c.isDigit then c.toNat - 48
  else if 'a' ≤ c ∧ c ≤ 'f' then c.toNat - 87
  else if 'A' ≤ c ∧ c ≤ 'F' then c.toNat - 55
  else 99

/-! ## JavaScript numbers -/

/-- A JavaScript number: NaN, an infinity, or a (modelled-exact) finite value. -/
inductive JSNum where
  | nan
  | posInf
  | negInf
  | num (q : Rat)
deriving DecidableEq

/-- JS unary minus. -/
def JSNum.neg : JSNum → JSNum
  | .nan => .nan
  | .posInf => .negInf
  | .negInf => .posInf
  | .num q => .num (-q)

/-- JS `<` (abstract relational comparison; false whenever NaN is involved). -/
def JSNum.lt : JSNum → JSNum → Bool
  | .nan, _ => false
  | _, .nan => false
  | .posInf, _ => false
  | .negInf, .negInf => false
  | .negInf, _ => true
  | .num _, .negInf => false
  | .num _, .posInf => true
  | .num a, .num b => a < b

/-- JS `>`. -/
def JSNum.gt (a b : JSNum) : Bool := JSNum.lt b a

/-- JS boolean coercion of a number: false for NaN and 0. -/
def JSNum.truthy : JSNum → Bool
  | .nan => false
  | .num q => q != 0
  | _ => true

/-! ## `Number(string)` -/

/-- Exponent part after the `e`/`E` of a decimal literal. -/
def jsParseExpPart : List Char → Option Int
  | '+' :: ds => if ds ≠ [] ∧ ds.all Char.isDigit then some (natDigits ds) else none
  | '-' :: ds => if ds ≠ [] ∧ ds.all Char.isDigit then some (-(natDigits ds : Int)) else none
  | ds => if ds ≠ [] ∧ ds.all Char.isDigit then some (natDigits ds) else none

/-- A non-decimal (`0x`/`0o`/`0b`) integer literal body in base `b`. -/
def jsParseRadix (b : Nat) (ds : List Char) : JSNum :=
  if ds ≠ [] ∧ ds.all (fun c => hexVal c < b) then
    .num (ds.foldl (fun a c => b * a + hexVal c) 0 : Nat)
  else .nan

/-- An unsigned decimal literal `digits [. digits] [e[±]digits]`. -/
def jsParseDec (r : List Char) : JSNum :=
  let ip := r.takeWhile Char.isDigit
  let r1 := r.dropWhile Char.isDigit
  let fp := match r1 with
    | '.' :: rest => rest.takeWhile Char.isDigit
    | _ => []
  let r2 := match r1 with
    | '.' :: rest => rest.dropWhile Char.isDigit
    | _ => r1
  if ip.isEmpty && fp.isEmpty then .nan
  else
    let mant : Rat := (natDigits ip : Rat) + (natDigits fp : Rat) / (10 : Rat) ^ fp.length
    match r2 with
    | [] => .num mant
    | e :: es =>
      if e = 'e' ∨ e = 'E' then
        match jsParseExpPart es with
        | some k => .num (mant * (10 : Rat) ^ k)
        | none => .nan
      else .nan

/-- `Infinity` or an unsigned decimal literal. -/
def jsParseDecOrInf (r : List Char) : JSNum :=
  if r = "Infinity".data then .posInf else jsParseDec r

/-- An optionally signed decimal literal (sign is not allowed before hex). -/
def jsParseSigned (t : List Char) : JSNum :=
  match t with
  | [] => .nan
  | c :: r =>
    if c = '+' then jsParseDecOrInf r
    else if c = '-' then (jsParseDecOrInf r).neg
    else jsParseDecOrInf t

/-- A trimmed, non-empty numeric string body. -/
def jsParseAfterTrim (t : List Char) : JSNum :=
  match t with
  | c0 :: c1 :: rest =>
    if c0 = '0' ∧ (c1 = 'x' ∨ c1 = 'X') then jsParseRadix 16 rest
    else if c0 = '0' ∧ (c1 = 'o' ∨ c1 = 'O') then jsParseRadix 8 rest
    else if c0 = '0' ∧ (c1 = 'b' ∨ c1 = 'B') then jsParseRadix 2 rest
    else jsParseSigned t
  | _ => jsParseSigned t

/-- `Number(string)` on a character list: trim, empty means 0, else parse. -/
def jsStrToNumL (cs : List Char) : JSNum :=
  if (trimL cs).isEmpty then .num 0 else jsParseAfterTrim (trimL cs)

/-- `Number(string)`. -/
def jsStrToNum (s : String) : JSNum := jsStrToNumL s.data

/-- `Number(v)` for `v : string | null` (JS `Number(null) = 0`). -/
def jsNumberOfOpt : Option String → JSNum
  | none => .num 0
  | some s => jsStrToNum s

/-- `x || 0` for a JS number `x`. -/
def jsOr0 (x : JSNum) : JSNum := if x.truthy then x else .num 0

/-- `v || ''` for `v : string | null`. -/
def jsStrOrEmpty : Option String → String
  | none => ""
  | some s => if s = "" then "" else s

/-- JS `String(x)` on a number.  Integral values print their decimal digits;
formatting of non-integral doubles is float-specific and abstracted here (a
rational rendering is produced; no claim exercises that branch). -/
def jsNumToString : JSNum → String
  | .nan => "NaN"
  | .posInf => "Infinity"
  | .negInf => "-Infinity"
  | .num q =>
    if q.den = 1 then
      if q.num < 0 then "-" ++ String.mk (natToDec q.num.natAbs)
      else String.mk (natToDec q.num.natAbs)
    else
      (if q.num < 0 then "-" else "") ++ String.mk (natToDec q.num.natAbs) ++ "/" ++
        String.mk (natToDec q.den)

/-! ## `URLSearchParams` -/

/-- A `URLSearchParams` value: its ordered list of key/value pairs. -/
abbrev Params := List (String × String)

/-- `URLSearchParams.get`: value of the first pair with the given key. -/
def getParam : Params → String → Option String
  | [], _ => none
  | (k, v) :: rest, key => if k = key then some v else getParam rest key

/-- `URLSearchParams.delete`: remove every pair with the given key. -/
def deleteParam : Params → String → Params
  | [], _ => []
  | (k, v) :: rest, key =>
    if k = key then deleteParam rest key else (k, v) :: deleteParam rest key

/-- `URLSearchParams.set`: replace the value of the first pair with the given
key (dropping later duplicates), or append the pair when the key is absent. -/
def setParam : Params → String → String → Params
  | [], key, val => [(key, val)]
  | (k, v) :: rest, key, val =>
    if k = key then (key, val) :: deleteParam rest key
    else (k, v) :: setParam rest key val

/-! ## Data model -/

/-- Modelled from the spec: the Prisma `Property` record type (generated by
the ORM, not present as source).  Glossary: "a property record (title, price,
address, bed/bath counts, status, geocoded coordinates) owned by an agent";
coordinates and ownership are never consulted by the verified code and are
omitted.  Numeric fields are modelled exactly. -/
structure Property where
  id : Nat
  title : String
  address : String
  price : Rat
  bedrooms : Int
  bathrooms : Rat
  status : String
deriving DecidableEq

/-- The `Filters` interface of `ListingsClient`: location text, price bounds,
bedroom minimum and status-visibility toggle.  The optional
`showAllStatuses?: boolean` is modelled as `Bool` (JS treats `undefined` as
false everywhere it is read). -/
structure Filters where
  location : String
  minPrice : JSNum
  maxPrice : JSNum
  bedrooms : JSNum
  showAllStatuses : Bool
deriving DecidableEq

/-! ## `ListingsClient` filter-state functions -/

/-- `parseFiltersFromSearchParams`: read the filter state out of the URL
search parameters with JS defaulting (`|| ''`, `Number(...) || 0`,
`=== 'true'`). -/
def parseFiltersFromSearchParams (searchParams : Params) : Filters :=
  { location := jsStrOrEmpty (getParam searchParams "location")
    minPrice := jsOr0 (jsNumberOfOpt (getParam searchParams "minPrice"))
    maxPrice := jsOr0 (jsNumberOfOpt (getParam searchParams "maxPrice"))
    bedrooms := jsOr0 (jsNumberOfOpt (getParam searchParams "bedrooms"))
    showAllStatuses := getParam searchParams "showAllStatuses" == some "true" }

/-- `filtersToQuery`: serialize the filter state into query parameters,
omitting JS-falsy fields.  (`URLSearchParams.toString` is abstracted: the
result is the parameter list itself.) -/
def filtersToQuery (filters : Filters) : Params :=
  let params : Params := []
  let params := if filters.location ≠ "" then setParam params "location" filters.location else params
  let params := if filters.minPrice.truthy then setParam params "minPrice" (jsNumToString filters.minPrice) else params
  let params := if filters.maxPrice.truthy then setParam params "maxPrice" (jsNumToString filters.maxPrice) else params
  let params := if filters.bedrooms.truthy then setParam params "bedrooms" (jsNumToString filters.bedrooms) else params
  let params := if filters.showAllStatuses then setParam params "showAllStatuses" "true" else params
  params

/-- The predicate of the `filteredProperties` memo: the early-return chain of
status, location, price-range and bedrooms checks. -/
def propertyPasses (filters : Filters) (property : Property) : Bool :=
  if !filters.showAllStatuses && !(property.status == "active") then false
  else if !(jsTrim filters.location == "") &&
      !(jsIncludes (jsToLower property.address) (jsTrim (jsToLower filters.location))) then false
  else if filters.minPrice.gt (.num 0) && JSNum.lt (.num property.price) filters.minPrice then false
  else if filters.maxPrice.gt (.num 0) && JSNum.gt (.num property.price) filters.maxPrice then false
  else if filters.bedrooms.gt (.num 0) && JSNum.lt (.num (property.bedrooms : Rat)) filters.bedrooms then false
  else true

/-- `filteredProperties`: the derived visible subset,
`properties.filter(...)`. -/
def filteredProperties (properties : List Property) (filters : Filters) : List Property :=
  properties.filter (fun property => propertyPasses filters property)

/-! ## `handleFilterChange` -/

/-- Outcome of the `router.replace` navigation call: success, a thrown
`Error` carrying a message, or a thrown non-`Error` value. -/
inductive NavResult where
  | ok
  | errError (msg : String)
  | errOther
deriving DecidableEq

/-- The component state touched by `handleFilterChange`. -/
structure ListingsState where
  filters : Filters
  isLoading : Bool
  error : Option String
deriving DecidableEq

/-- `handleFilterChange`: set loading, clear the error, apply the new filter
state locally, then issue the single `router.replace` navigation with the
serialized query; on a thrown error record its message (with a fallback text
for non-`Error` values); finally clear loading.  Returns the resulting state
together with the list of navigation calls issued (each call is the query it
navigated to). -/
def handleFilterChange (s : ListingsState) (newFilters : Filters) (nav : NavResult) :
    ListingsState × List Params :=
  let s1 := { s with isLoading := true, error := none, filters := newFilters }
  let query := filtersToQuery newFilters
  let s2 :=
    match nav with
    | .ok => s1
    | .errError msg => { s1 with error := some msg }
    | .errOther => { s1 with error := some "Failed to update filters. Please try again." }
  ({ s2 with isLoading := false }, [query])

/-! ## `PropertyListings`: view-mode / selection URL synchronization -/

/-- The URL-update effect of `PropertyListings` (runs whenever
`forceSplitView`, `showMapOnly` or `selectedPropertyId` changes): rewrite the
current query parameters, setting or deleting `view` and `selected`. -/
def updateViewSelectionParams (params : Params) (forceSplitView showMapOnly : Bool)
    (selectedPropertyId : Option Nat) : Params :=
  let p1 :=
    if forceSplitView then setParam params "view" "split"
    else if showMapOnly then setParam params "view" "map"
    else deleteParam params "view"
  match selectedPropertyId with
  | some n =>
    if n ≠ 0 then setParam p1 "selected" (String.mk (natToDec n))
    else deleteParam p1 "selected"
  | none => deleteParam p1 "selected"

/-! ## `PropertyListings`: modal Previous/Next navigation -/

/-- `Array.prototype.findIndex`, as an `Option`al index. -/
def jsFindIndex (p : α → Bool) : List α → Option Nat
  | [] => none
  | a :: as => if p a then some 0 else (jsFindIndex p as).map (· + 1)

/-- The modal Next button: find the index of the selected property (by id) and
select the id of the property at the next index modulo the list length.
`none` when no property has the selected id (the modal is not shown then). -/
def modalNext (properties : List Property) (selectedId : Nat) : Option Nat :=
  match jsFindIndex (fun p => p.id == selectedId) properties with
  | some idx => (properties.get? ((idx + 1) % properties.length)).map Property.id
  | none => none

/-- The modal Previous button: as `modalNext` but with index
`(idx - 1 + length) % length`. -/
def modalPrev (properties : List Property) (selectedId : Nat) : Option Nat :=
  match jsFindIndex (fun p => p.id == selectedId) properties with
  | some idx => (properties.get? ((idx + properties.length - 1) % properties.length)).map Property.id
  | none => none

/-! ## Concrete sample data (used by witnesses and counterexamples) -/

/-- An active listing with a single bathroom. -/
def oneBathActive : Property :=
  { id := 1, title := "Loft", address := "12 Oak St", price := 100,
    bedrooms := 2, bathrooms := 1, status := "active" }

/-- An active two-bedroom listing in Austin. -/
def sampleAustin : Property :=
  { id := 1, title := "A", address := "123 Main St, Austin", price := 500000,
    bedrooms := 2, bathrooms := 2, status := "active" }

/-- A sold three-bedroom listing in Dallas. -/
def sampleDallas : Property :=
  { id := 2, title := "B", address := "9 Elm St, Dallas", price := 300000,
    bedrooms := 3, bathrooms := 2, status := "sold" }

/-- A third active listing. -/
def sampleThird : Property :=
  { id := 3, title := "C", address := "1 Pine Rd", price := 100,
    bedrooms := 1, bathrooms := 1, status := "active" }

/-- A listing whose id duplicates `sampleDallas`'s id. -/
def sampleDupId : Property :=
  { id := 2, title := "D", address := "2 Fir Ct", price := 200,
    bedrooms := 1, bathrooms := 1, status := "active" }

/-- The all-default filter state (what an empty query parses to). -/
def defaultFilters : Filters :=
  { location := "", minPrice := .num 0, maxPrice := .num 0, bedrooms := .num 0,
    showAllStatuses := false }

/-- Filters with a location search term. -/
def austinFilters : Filters := { defaultFilters with location := " AUSTIN " }

/-- Filters with a bedroom minimum of 3, showing all statuses. -/
def bedsFilters : Filters :=
  { defaultFilters with bedrooms := .num 3, showAllStatuses := true }

/-- Filters with a minimum price of 400000. -/
def minPriceFilters : Filters := { defaultFilters with minPrice := .num 400000 }

/-! ## Lemmas: `URLSearchParams` get/set/delete -/

theorem getParam_deleteParam_self (ps : Params) (k : String) :
    getParam (deleteParam ps k) k = none := by
  induction ps with
  | nil => rfl
  | cons kv rest ih =>
    obtain ⟨k0, v0⟩ := kv
    simp only [deleteParam]
    split_ifs with h
    · exact ih
    · simpa [getParam, h] using ih

theorem getParam_deleteParam_ne (ps : Params) (k key : String) (h : key ≠ k) :
    getParam (deleteParam ps k) key = getParam ps key := by
  induction ps with
  | nil => rfl
  | cons kv rest ih =>
    obtain ⟨k0, v0⟩ := kv
    simp only [deleteParam]
    split_ifs with h0
    · subst h0
      simpa [getParam, Ne.symm h] using ih
    · simp only [getParam]
      split_ifs with h1
      · rfl
      · exact ih

theorem getParam_setParam_self (ps : Params) (k v : String) :
    getParam (setParam ps k v) k = some v := by
  induction ps with
  | nil => simp [setParam, getParam]
  | cons kv rest ih =>
    obtain ⟨k0, v0⟩ := kv
    simp only [setParam]
    split_ifs with h
    · simp [getParam]
    · simpa [getParam, h] using ih

theorem getParam_setParam_ne (ps : Params) (k v key : String) (h : key ≠ k) :
    getParam (setParam ps k v) key = getParam ps key := by
  induction ps with
  | nil => simp [setParam, getParam, Ne.symm h]
  | cons kv rest ih =>
    obtain ⟨k0, v0⟩ := kv
    simp only [setParam]
    split_ifs with h0
    · subst h0
      simp only [getParam, if_neg (Ne.symm h), if_neg h]
      exact getParam_deleteParam_ne rest k0 key h
    · simp only [getParam]
      split_ifs with h1
      · rfl
      · exact ih

/-! ## Lemmas: the filter predicate -/

theorem mem_filteredProperties (properties : List Property) (filters : Filters)
    (property : Property) :
    property ∈ filteredProperties properties filters ↔
      property ∈ properties ∧ propertyPasses filters property = true := by
  simp [filteredProperties, List.mem_filter]

/-- The early-return chain of `filteredProperties`, as a conjunction. -/
theorem propertyPasses_iff (filters : Filters) (property : Property) :
    propertyPasses filters property = true ↔
      (filters.showAllStatuses = true ∨ property.status = "active") ∧
      (jsTrim filters.location = "" ∨
        jsIncludes (jsToLower property.address) (jsTrim (jsToLower filters.location)) = true) ∧
      ¬(filters.minPrice.gt (.num 0) = true ∧
        JSNum.lt (.num property.price) filters.minPrice = true) ∧
      ¬(filters.maxPrice.gt (.num 0) = true ∧
        JSNum.gt (.num property.price) filters.maxPrice = true) ∧
      ¬(filters.bedrooms.gt (.num 0) = true ∧
        JSNum.lt (.num (property.bedrooms : Rat)) filters.bedrooms = true) := by
  unfold propertyPasses
  cases hs : filters.showAllStatuses <;>
    split_ifs with h1 h2 h3 h4 h5 <;>
      simp_all [Bool.and_eq_true, Bool.not_eq_true', Bool.not_eq_false, beq_iff_eq] <;>
      tauto

/-! ## Claim C1 -/

/-- Claim C1 as stated is false of the code: the parsed filter state has no
bathroom-minimum component at all (a `bathrooms` query parameter, the
user-chosen bathroom minimum of the spec's filter state, is ignored by
`parseFiltersFromSearchParams`), and with the bathroom minimum 2 (> 0) in the
query string the filtered visible subset contains a property with bathroom
count 1 < 2. -/
theorem bathroom_minimum_not_applied :
    parseFiltersFromSearchParams [("bathrooms", "2")] = parseFiltersFromSearchParams [] ∧
    oneBathActive ∈
      filteredProperties [oneBathActive] (parseFiltersFromSearchParams [("bathrooms", "2")]) ∧
    oneBathActive.bathrooms < 2 := by
  refine ⟨by decide, by decide, by decide⟩

/-- Claim C1, amended: the filter state carries no bathroom minimum; the
derived filtering applies a bedroom minimum instead.  For every property list
and every filter state whose bedroom minimum is a number greater than 0,
every property in the filtered visible subset has a bedroom count greater
than or equal to that minimum; bathroom counts never affect the filter
predicate. -/
theorem bedroom_minimum_enforced (properties : List Property) (filters : Filters)
    (property : Property) :
    (∀ q : Rat, filters.bedrooms = .num q → 0 < q →
      property ∈ filteredProperties properties filters → q ≤ (property.bedrooms : Rat)) ∧
    (∀ b : Rat, propertyPasses filters { property with bathrooms := b } =
      propertyPasses filters property) := by
  constructor
  · intro q hq hpos hmem
    have h := ((mem_filteredProperties properties filters property).1 hmem).2
    have h5 := ((propertyPasses_iff filters property).1 h).2.2.2.2
    rw [hq] at h5
    simp only [JSNum.gt, JSNum.lt, decide_eq_true_eq] at h5
    exact not_lt.1 fun hlt => h5 ⟨hpos, hlt⟩
  · intro b
    simp [propertyPasses]

/-- Witness for `bedroom_minimum_enforced` at concrete inputs. -/
theorem bedroom_minimum_enforced_witness :
    (3 : Rat) ≤ (sampleDallas.bedrooms : Rat) ∧
    propertyPasses defaultFilters { sampleAustin with bathrooms := 9 } =
      propertyPasses defaultFilters sampleAustin :=
  ⟨(bedroom_minimum_enforced [sampleDallas, sampleAustin] bedsFilters sampleDallas).1 3 rfl
      (by norm_num) (by decide),
   (bedroom_minimum_enforced [] defaultFilters sampleAustin).2 9⟩

/-! ## Claim C2 -/

/-- Claim C2: when `showAllStatuses` is false, every property in the filtered
visible subset has status `"active"`; when it is true, the status of a
property never affects the filter predicate (status excludes no property). -/
theorem status_visibility_filter (properties : List Property) (filters : Filters)
    (property : Property) :
    (filters.showAllStatuses = false → property ∈ filteredProperties properties filters →
      property.status = "active") ∧
    (filters.showAllStatuses = true → ∀ s : String,
      propertyPasses filters { property with status := s } =
        propertyPasses filters property) := by
  constructor
  · intro hs hmem
    have h := ((mem_filteredProperties properties filters property).1 hmem).2
    rcases ((propertyPasses_iff filters property).1 h).1 with h1 | h1
    · rw [hs] at h1; cases h1
    · exact h1
  · intro hs s
    simp [propertyPasses, hs]

/-- Witness for `status_visibility_filter` at concrete inputs. -/
theorem status_visibility_filter_witness :
    sampleAustin.status = "active" ∧
    propertyPasses { defaultFilters with showAllStatuses := true }
        { sampleDallas with status := "pending" } =
      propertyPasses { defaultFilters with showAllStatuses := true } sampleDallas :=
  ⟨(status_visibility_filter [sampleAustin, sampleDallas] defaultFilters sampleAustin).1 rfl
      (by decide),
   (status_visibility_filter [] { defaultFilters with showAllStatuses := true } sampleDallas).2
      rfl "pending"⟩

/-! ## Claim C3 -/

/-- Claim C3: when the location text is non-blank after trimming, a property
is retained only if its lowercased address contains the lowercased-and-trimmed
location text as a substring; when the location text trims to empty, the
address of a property never affects the filter predicate (location excludes
no property). -/
theorem location_substring_filter (properties : List Property) (filters : Filters)
    (property : Property) :
    (jsTrim filters.location ≠ "" → property ∈ filteredProperties properties filters →
      jsIncludes (jsToLower property.address) (jsTrim (jsToLower filters.location)) = true) ∧
    (jsTrim filters.location = "" → ∀ a : String,
      propertyPasses filters { property with address := a } =
        propertyPasses filters property) := by
  constructor
  · intro hloc hmem
    have h := ((mem_filteredProperties properties filters property).1 hmem).2
    rcases ((propertyPasses_iff filters property).1 h).2.1 with h1 | h1
    · exact absurd h1 hloc
    · exact h1
  · intro hloc a
    simp [propertyPasses, hloc]

/-- Witness for `location_substring_filter` at concrete inputs. -/
theorem location_substring_filter_witness :
    jsIncludes (jsToLower sampleAustin.address) (jsTrim (jsToLower austinFilters.location)) = true ∧
    propertyPasses defaultFilters { sampleDallas with address := "9 Elm" } =
      propertyPasses defaultFilters sampleDallas :=
  ⟨(location_substring_filter [sampleAustin, sampleDallas] austinFilters sampleAustin).1
      (by decide) (by decide),
   (location_substring_filter [] defaultFilters sampleDallas).2 (by decide) "9 Elm"⟩

/-! ## Claim C4 -/

/-- Claim C4: for numeric price bounds, a property that passes the status,
location and bedroom checks is in the filtered visible subset exactly when it
is not excluded by price, and it is excluded by price exactly when the
minimum price is greater than 0 and its price is strictly below it, or the
maximum price is greater than 0 and its price is strictly above it.  Both
bounds are inclusive, a bound equal to 0 imposes no constraint, and no
relation between the two bounds is required (`a` and `b` are arbitrary). -/
theorem price_bounds_filter (properties : List Property) (filters : Filters)
    (property : Property) (a b : Rat)
    (hmin : filters.minPrice = .num a) (hmax : filters.maxPrice = .num b)
    (hmem : property ∈ properties)
    (hstatus : filters.showAllStatuses = true ∨ property.status = "active")
    (hloc : jsTrim filters.location = "" ∨
      jsIncludes (jsToLower property.address) (jsTrim (jsToLower filters.location)) = true)
    (hbeds : ¬(filters.bedrooms.gt (.num 0) = true ∧
      JSNum.lt (.num (property.bedrooms : Rat)) filters.bedrooms = true)) :
    property ∈ filteredProperties properties filters ↔
      ¬((0 < a ∧ property.price < a) ∨ (0 < b ∧ b < property.price)) := by
  rw [mem_filteredProperties, propertyPasses_iff]
  simp only [hmin, hmax, JSNum.gt, JSNum.lt, decide_eq_true_eq]
  constructor
  · rintro ⟨-, -, -, hm, hM, -⟩ hcon
    rcases hcon with ⟨h0, hp⟩ | ⟨h0, hp⟩
    · exact hm ⟨h0, hp⟩
    · exact hM ⟨h0, hp⟩
  · intro hnp
    refine ⟨hmem, hstatus, hloc, ?_, ?_, hbeds⟩
    · exact fun hc => hnp (Or.inl hc)
    · exact fun hc => hnp (Or.inr hc)

/-- Witness for `price_bounds_filter` at concrete inputs: a price of 500000
passes a minimum-price bound of 400000 (and an absent maximum bound). -/
theorem price_bounds_filter_witness :
    sampleAustin ∈ filteredProperties [sampleAustin] minPriceFilters :=
  (price_bounds_filter [sampleAustin] minPriceFilters sampleAustin 400000 0 rfl rfl
      (by decide) (Or.inr rfl) (Or.inl (by decide)) (by decide)).2 (by decide)

/-! ## Claim C6 -/

/-- Claim C6: the derived filtering is a pure selection: the filtered visible
subset is a subsequence of the input list — every output element occurs in
the input, relative order is kept, and no element is introduced or
duplicated.  (Purity and determinism — the input is unchanged and equal
inputs give equal outputs — are inherent to the embedding: `filteredProperties`
is a function; the O(n) single-scan cost is a complexity property outside the
embedding.) -/
theorem filteredProperties_sublist (properties : List Property) (filters : Filters) :
    List.Sublist (filteredProperties properties filters) properties :=
  List.filter_sublist properties

/-! ## Claim C7 -/

lemma updateView_getParam_view (params : Params) (f m : Bool) (sel : Option Nat) :
    getParam (updateViewSelectionParams params f m sel) "view" =
      if f then some "split" else if m then some "map" else none := by
  cases sel with
  | none =>
    cases f <;> cases m <;>
      simp [updateViewSelectionParams, getParam_deleteParam_ne, getParam_deleteParam_self,
        getParam_setParam_self, getParam_setParam_ne]
  | some n =>
    by_cases hn : n = 0 <;>
      cases f <;> cases m <;>
        simp [updateViewSelectionParams, hn, getParam_deleteParam_ne, getParam_deleteParam_self,
          getParam_setParam_self, getParam_setParam_ne]

lemma updateView_getParam_selected (params : Params) (f m : Bool) (sel : Option Nat) :
    getParam (updateViewSelectionParams params f m sel) "selected" =
      match sel with
      | some n => if n ≠ 0 then some (String.mk (natToDec n)) else none
      | none => none := by
  cases sel with
  | none =>
    cases f <;> cases m <;>
      simp [updateViewSelectionParams, getParam_deleteParam_ne, getParam_deleteParam_self,
        getParam_setParam_self, getParam_setParam_ne]
  | some n =>
    by_cases hn : n = 0 <;>
      cases f <;> cases m <;>
        simp [updateViewSelectionParams, hn, getParam_deleteParam_ne, getParam_deleteParam_self,
          getParam_setParam_self, getParam_setParam_ne]

lemma updateView_getParam_other (params : Params) (f m : Bool) (sel : Option Nat)
    (key : String) (h1 : key ≠ "view") (h2 : key ≠ "selected") :
    getParam (updateViewSelectionParams params f m sel) key = getParam params key := by
  cases sel with
  | none =>
    cases f <;> cases m <;>
      simp [updateViewSelectionParams, getParam_deleteParam_ne _ _ _ h1,
        getParam_deleteParam_ne _ _ _ h2, getParam_setParam_ne _ _ _ _ h1,
        getParam_setParam_ne _ _ _ _ h2]
  | some n =>
    by_cases hn : n = 0 <;>
      cases f <;> cases m <;>
        simp [updateViewSelectionParams, hn, getParam_deleteParam_ne _ _ _ h1,
          getParam_deleteParam_ne _ _ _ h2, getParam_setParam_ne _ _ _ _ h1,
          getParam_setParam_ne _ _ _ _ h2]

/-- Claim C7: after the URL-update effect runs for any combination of
`(forceSplitView, showMapOnly, selectedPropertyId)`, the query contains
`view=split` exactly when split view is forced, `view=map` exactly when
map-only is on and split view is not forced, and no `view` parameter
otherwise; it contains `selected=<id>` exactly when a non-zero property id is
selected and no `selected` parameter otherwise; every other query parameter
is preserved unchanged. -/
theorem view_selection_url_invariant (params : Params) (forceSplitView showMapOnly : Bool)
    (selectedPropertyId : Option Nat) :
    (getParam (updateViewSelectionParams params forceSplitView showMapOnly selectedPropertyId)
        "view" = some "split" ↔ forceSplitView = true) ∧
    (getParam (updateViewSelectionParams params forceSplitView showMapOnly selectedPropertyId)
        "view" = some "map" ↔ (forceSplitView = false ∧ showMapOnly = true)) ∧
    (getParam (updateViewSelectionParams params forceSplitView showMapOnly selectedPropertyId)
        "view" = none ↔ (forceSplitView = false ∧ showMapOnly = false)) ∧
    (∀ n : Nat, selectedPropertyId = some n → n ≠ 0 →
      getParam (updateViewSelectionParams params forceSplitView showMapOnly selectedPropertyId)
        "selected" = some (String.mk (natToDec n))) ∧
    ((selectedPropertyId = none ∨ selectedPropertyId = some 0) →
      getParam (updateViewSelectionParams params forceSplitView showMapOnly selectedPropertyId)
        "selected" = none) ∧
    (∀ key : String, key ≠ "view" → key ≠ "selected" →
      getParam (updateViewSelectionParams params forceSplitView showMapOnly selectedPropertyId)
        key = getParam params key) := by
  refine ⟨?_, ?_, ?_, ?_, ?_, ?_⟩
  · rw [updateView_getParam_view]
    cases forceSplitView <;> cases showMapOnly <;> simp
  · rw [updateView_getParam_view]
    cases forceSplitView <;> cases showMapOnly <;> simp
  · rw [updateView_getParam_view]
    cases forceSplitView <;> cases showMapOnly <;> simp
  · intro n hsel hn
    subst hsel
    rw [updateView_getParam_selected]
    simp [hn]
  · intro hsel
    rcases hsel with rfl | rfl <;> simp [updateView_getParam_selected]
  · intro key h1 h2
    exact updateView_getParam_other params forceSplitView showMapOnly selectedPropertyId key h1 h2

/-- Witness for `view_selection_url_invariant` at concrete inputs. -/
theorem view_selection_url_invariant_witness :
    getParam (updateViewSelectionParams [("location", "austin")] false true (some 5)) "view" =
        some "map" ∧
    getParam (updateViewSelectionParams [("location", "austin")] false true (some 5)) "selected" =
        some "5" ∧
    getParam (updateViewSelectionParams [("location", "austin")] false true (some 5)) "location" =
        some "austin" :=
  ⟨(view_selection_url_invariant [("location", "austin")] false true (some 5)).2.1.2
      ⟨rfl, rfl⟩,
   (view_selection_url_invariant [("location", "austin")] false true (some 5)).2.2.2.1 5 rfl
      (by decide),
   (view_selection_url_invariant [("location", "austin")] false true (some 5)).2.2.2.2.2
      "location" (by decide) (by decide)⟩

/-! ## Claim C8 -/

/-- Claim C8: `handleFilterChange` applies the new filter state locally and
issues exactly one navigation call carrying its serialization; when the
navigation call fails it records the thrown error's message (or the fallback
text for non-`Error` throws) for display, performs no retry (still exactly
one call), and the new filter state stays applied — it is not rolled back.
(The local application textually precedes the navigation call in the
embedding, as in the source.) -/
theorem handleFilterChange_spec (s : ListingsState) (newFilters : Filters) (nav : NavResult) :
    (handleFilterChange s newFilters nav).2 = [filtersToQuery newFilters] ∧
    (handleFilterChange s newFilters nav).1.filters = newFilters ∧
    (handleFilterChange s newFilters nav).1.isLoading = false ∧
    (nav = .ok → (handleFilterChange s newFilters nav).1.error = none) ∧
    (∀ msg : String, nav = .errError msg →
      (handleFilterChange s newFilters nav).1.error = some msg) ∧
    (nav = .errOther →
      (handleFilterChange s newFilters nav).1.error =
        some "Failed to update filters. Please try again.") := by
  cases nav <;> simp [handleFilterChange]

/-- Witness for `handleFilterChange_spec` at concrete inputs. -/
theorem handleFilterChange_spec_witness :
    (handleFilterChange ⟨defaultFilters, false, none⟩ austinFilters
        (.errError "network down")).1.error = some "network down" ∧
    (handleFilterChange ⟨defaultFilters, false, none⟩ austinFilters
        (.errError "network down")).1.filters = austinFilters ∧
    (handleFilterChange ⟨defaultFilters, false, none⟩ austinFilters
        (.errError "network down")).2 = [filtersToQuery austinFilters] :=
  ⟨(handleFilterChange_spec ⟨defaultFilters, false, none⟩ austinFilters
      (.errError "network down")).2.2.2.2.1 "network down" rfl,
   (handleFilterChange_spec ⟨defaultFilters, false, none⟩ austinFilters
      (.errError "network down")).2.1,
   (handleFilterChange_spec ⟨defaultFilters, false, none⟩ austinFilters
      (.errError "network down")).1⟩

/-! ## Claim C10 -/

lemma jsFindIndex_nodup_get (props : List Property) (i : Nat) (h : i < props.length)
    (hnd : (props.map Property.id).Nodup) :
    jsFindIndex (fun p => p.id == (props.get ⟨i, h⟩).id) props = some i := by
  induction props generalizing i with
  | nil => exact absurd h (by simp)
  | cons p rest ih =>
    cases i with
    | zero => simp [jsFindIndex]
    | succ i =>
      have hlen : i < rest.length := by simpa using h
      have hget : (p :: rest).get ⟨i + 1, h⟩ = rest.get ⟨i, hlen⟩ := rfl
      have htarget : (rest.get ⟨i, hlen⟩).id ∈ rest.map Property.id :=
        List.mem_map_of_mem Property.id (rest.get_mem i hlen)
      have hne : ¬(p.id = (rest.get ⟨i, hlen⟩).id) := by
        simp only [List.map_cons, List.nodup_cons] at hnd
        intro he
        exact hnd.1 (he ▸ htarget)
      rw [hget]
      simp only [jsFindIndex, beq_iff_eq, if_neg hne]
      rw [ih i hlen (by simp only [List.map_cons, List.nodup_cons] at hnd; exact hnd.2)]
      rfl

lemma mod_succ_pred (i l : Nat) (h : i < l) : ((i + 1) % l + l - 1) % l = i := by
  rcases Nat.lt_or_ge (i + 1) l with h1 | h1
  · rw [Nat.mod_eq_of_lt h1]
    have h2 : i + 1 + l - 1 = i + l := by omega
    rw [h2, Nat.add_mod_right, Nat.mod_eq_of_lt h]
  · have h2 : i + 1 = l := by omega
    rw [h2, Nat.mod_self]
    have h3 : 0 + l - 1 = l - 1 := by omega
    rw [h3, Nat.mod_eq_of_lt (by omega)]
    omega

/-- Claim C10 as stated is false of the code: the modal tracks the selection
by property id and looks it up with `findIndex`, so in a displayed list with
a duplicated id, Next followed by Previous need not restore the original
selection.  With ids `[1, 2, 3, 2]` and id 3 selected (a non-empty list
containing the selection), Next selects the id of index 3, which is 2; but
Previous then finds the first property with id 2 (index 1) and selects id 1,
not 3. -/
theorem modal_nav_duplicate_id_counterexample :
    [sampleAustin, sampleDallas, sampleThird, sampleDupId] ≠ [] ∧
    (∃ p ∈ [sampleAustin, sampleDallas, sampleThird, sampleDupId], p.id = 3) ∧
    modalNext [sampleAustin, sampleDallas, sampleThird, sampleDupId] 3 = some 2 ∧
    modalPrev [sampleAustin, sampleDallas, sampleThird, sampleDupId] 2 = some 1 ∧
    (modalNext [sampleAustin, sampleDallas, sampleThird, sampleDupId] 3).bind
      (fun j => modalPrev [sampleAustin, sampleDallas, sampleThird, sampleDupId] j) = some 1 ∧
    (1 : Nat) ≠ 3 := by
  refine ⟨by decide, by decide, by decide, by decide, by decide, by decide⟩

/-- Claim C10, amended: provided the property ids in the displayed list are
distinct (listings are database rows keyed by id), for every non-empty
displayed property list with the property at index `i` selected, Next moves
the selection to the property at index `(i+1) mod length` (so from the last
property to the first), Previous moves it to the property at index
`(i-1+length) mod length` (so from the first property to the last), and Next
followed by Previous restores the original selection. -/
theorem modal_nav_wraparound (props : List Property) (i : Nat) (h : i < props.length)
    (hnd : (props.map Property.id).Nodup) :
    modalNext props ((props.get ⟨i, h⟩).id) =
      (props.get? ((i + 1) % props.length)).map Property.id ∧
    modalPrev props ((props.get ⟨i, h⟩).id) =
      (props.get? ((i + props.length - 1) % props.length)).map Property.id ∧
    (modalNext props ((props.get ⟨i, h⟩).id)).bind (fun j => modalPrev props j) =
      some ((props.get ⟨i, h⟩).id) := by
  have hpos : 0 < props.length := by omega
  have hfi := jsFindIndex_nodup_get props i h hnd
  have hnext : modalNext props ((props.get ⟨i, h⟩).id) =
      (props.get? ((i + 1) % props.length)).map Property.id := by
    unfold modalNext
    rw [hfi]
  have hprev : modalPrev props ((props.get ⟨i, h⟩).id) =
      (props.get? ((i + props.length - 1) % props.length)).map Property.id := by
    unfold modalPrev
    rw [hfi]
  refine ⟨hnext, hprev, ?_⟩
  have hj : (i + 1) % props.length < props.length := Nat.mod_lt _ hpos
  have hget : props.get? ((i + 1) % props.length) =
      some (props.get ⟨(i + 1) % props.length, hj⟩) := List.get?_eq_get hj
  have hfj := jsFindIndex_nodup_get props ((i + 1) % props.length) hj hnd
  have hprev2 : modalPrev props ((props.get ⟨(i + 1) % props.length, hj⟩).id) =
      (props.get? (((i + 1) % props.length + props.length - 1) % props.length)).map
        Property.id := by
    unfold modalPrev
    rw [hfj]
  have hstep : (modalNext props ((props.get ⟨i, h⟩).id)).bind (fun j => modalPrev props j) =
      modalPrev props ((props.get ⟨(i + 1) % props.length, hj⟩).id) := by
    rw [hnext, hget]
    rfl
  rw [hstep, hprev2, mod_succ_pred i props.length h, List.get?_eq_get h]
  rfl

/-- Witness for `modal_nav_wraparound` at concrete inputs: with distinct ids
`[1, 2, 3]` and id 3 (the last property) selected, Next then Previous returns
to id 3. -/
theorem modal_nav_wraparound_witness :
    (modalNext [sampleAustin, sampleDallas, sampleThird] 3).bind
      (fun j => modalPrev [sampleAustin, sampleDallas, sampleThird] j) = some 3 :=
  (modal_nav_wraparound [sampleAustin, sampleDallas, sampleThird] 2 (by decide) (by decide)).2.2

/-! ## Lemmas: decimal digit strings and `Number(string)` -/

lemma digitChar_toNat (d : Nat) (h : d < 10) : (Char.ofNat (48 + d)).toNat = 48 + d := by
  interval_cases d <;> decide

lemma digitChar_isDigit (d : Nat) (h : d < 10) : (Char.ofNat (48 + d)).isDigit = true := by
  interval_cases d <;> decide

lemma natDigits_append (l : List Char) (c : Char) :
    natDigits (l ++ [c]) = 10 * natDigits l + (c.toNat - 48) := by
  simp [natDigits, List.foldl_append]

lemma natToDecAux_spec (fuel : Nat) : ∀ n : Nat, n < fuel →
    natDigits (natToDecAux fuel n) = n ∧ natToDecAux fuel n ≠ [] ∧
      ∀ c ∈ natToDecAux fuel n, c.isDigit = true := by
  induction fuel with
  | zero => intro n h; omega
  | succ fuel ih =>
    intro n h
    simp only [natToDecAux]
    split_ifs with h10
    · refine ⟨?_, by simp, ?_⟩
      · simp [natDigits, digitChar_toNat n h10]
      · intro c hc
        simp only [List.mem_singleton] at hc
        subst hc
        exact digitChar_isDigit n h10
    · have hdivlt : n / 10 < n := Nat.div_lt_self (by omega) (by omega)
      have hdiv : n / 10 < fuel := by omega
      obtain ⟨ih1, ih2, ih3⟩ := ih (n / 10) hdiv
      have hm : n % 10 < 10 := Nat.mod_lt _ (by omega)
      refine ⟨?_, by simp, ?_⟩
      · rw [natDigits_append, ih1, digitChar_toNat _ hm]
        omega
      · intro c hc
        rcases List.mem_append.1 hc with hc | hc
        · exact ih3 c hc
        · simp only [List.mem_singleton] at hc
          subst hc
          exact digitChar_isDigit _ hm

lemma natToDec_digits (n : Nat) : natDigits (natToDec n) = n :=
  (natToDecAux_spec (n + 1) n (by omega)).1

lemma natToDec_ne_nil (n : Nat) : natToDec n ≠ [] :=
  (natToDecAux_spec (n + 1) n (by omega)).2.1

lemma natToDec_all_digit (n : Nat) : ∀ c ∈ natToDec n, c.isDigit = true :=
  (natToDecAux_spec (n + 1) n (by omega)).2.2

lemma ws_not_digit (c : Char) (h : c.isDigit = true) : jsWhitespaceChar c = false := by
  unfold jsWhitespaceChar
  simp only [Bool.or_eq_false_iff, beq_eq_false_iff_ne]
  repeat' apply And.intro
  all_goals (intro he; subst he; exact absurd h (by decide))

lemma digit_ne (c : Char) (h : c.isDigit = true) (d : Char) (hd : d.isDigit = false) :
    c ≠ d := by
  intro he
  rw [he, hd] at h
  cases h

lemma takeWhile_of_forall {α : Type} {p : α → Bool} :
    ∀ l : List α, (∀ a ∈ l, p a = true) → l.takeWhile p = l := by
  intro l
  induction l with
  | nil => intro _; rfl
  | cons a as ih =>
    intro h
    rw [List.takeWhile_cons, if_pos (h a (List.mem_cons_self a as)),
      ih (fun b hb => h b (List.mem_cons_of_mem a hb))]

lemma dropWhile_of_forall {α : Type} {p : α → Bool} :
    ∀ l : List α, (∀ a ∈ l, p a = true) → l.dropWhile p = [] := by
  intro l
  induction l with
  | nil => intro _; rfl
  | cons a as ih =>
    intro h
    rw [List.dropWhile_cons, if_pos (h a (List.mem_cons_self a as))]
    exact ih (fun b hb => h b (List.mem_cons_of_mem a hb))

lemma dropWhile_of_forall_not {α : Type} {p : α → Bool} :
    ∀ l : List α, (∀ a ∈ l, p a = false) → l.dropWhile p = l := by
  intro l
  cases l with
  | nil => intro _; rfl
  | cons a as =>
    intro h
    rw [List.dropWhile_cons, if_neg (by simp [h a (List.mem_cons_self a as)])]

lemma trimL_of_digits (cs : List Char) (h : ∀ c ∈ cs, c.isDigit = true) : trimL cs = cs := by
  unfold trimL
  rw [dropWhile_of_forall_not cs (fun a ha => ws_not_digit a (h a ha))]
  rw [dropWhile_of_forall_not cs.reverse
    (fun a ha => ws_not_digit a (h a (List.mem_reverse.1 ha)))]
  exact List.reverse_reverse cs

/-- `Number` applied to a non-empty all-digit string yields its decimal value. -/
lemma jsStrToNumL_digits (cs : List Char) (hne : cs ≠ [])
    (h : ∀ c ∈ cs, c.isDigit = true) : jsStrToNumL cs = .num (natDigits cs) := by
  unfold jsStrToNumL
  rw [trimL_of_digits cs h, if_neg (by simp [List.isEmpty_iff, hne])]
  obtain ⟨c0, rest, rfl⟩ : ∃ c0 rest, cs = c0 :: rest := by
    cases cs with
    | nil => exact absurd rfl hne
    | cons a as => exact ⟨a, as, rfl⟩
  have hc0 : c0.isDigit = true := h c0 (List.mem_cons_self _ _)
  have hsigned : jsParseSigned (c0 :: rest) = jsParseDecOrInf (c0 :: rest) := by
    show (if c0 = '+' then jsParseDecOrInf rest
      else if c0 = '-' then (jsParseDecOrInf rest).neg
      else jsParseDecOrInf (c0 :: rest)) = jsParseDecOrInf (c0 :: rest)
    rw [if_neg (digit_ne c0 hc0 '+' (by decide)), if_neg (digit_ne c0 hc0 '-' (by decide))]
  have hInf : ¬(c0 :: rest = "Infinity".data) := by
    intro he
    rw [show "Infinity".data = 'I' :: "nfinity".data from rfl] at he
    injection he with h1 _
    rw [h1] at hc0
    exact absurd hc0 (by decide)
  have hdec : jsParseDecOrInf (c0 :: rest) = jsParseDec (c0 :: rest) := by
    unfold jsParseDecOrInf
    rw [if_neg hInf]
  have hparse : jsParseAfterTrim (c0 :: rest) = jsParseDec (c0 :: rest) := by
    cases rest with
    | nil =>
      show jsParseSigned [c0] = _
      rw [hsigned, hdec]
    | cons c1 rest2 =>
      have hc1 : c1.isDigit = true := h c1 (by simp)
      have hx : ¬(c0 = '0' ∧ (c1 = 'x' ∨ c1 = 'X')) := by
        rintro ⟨-, rfl | rfl⟩ <;> exact absurd hc1 (by decide)
      have ho : ¬(c0 = '0' ∧ (c1 = 'o' ∨ c1 = 'O')) := by
        rintro ⟨-, rfl | rfl⟩ <;> exact absurd hc1 (by decide)
      have hb : ¬(c0 = '0' ∧ (c1 = 'b' ∨ c1 = 'B')) := by
        rintro ⟨-, rfl | rfl⟩ <;> exact absurd hc1 (by decide)
      simp only [jsParseAfterTrim]
      rw [if_neg hx, if_neg ho, if_neg hb, hsigned, hdec]
  rw [hparse]
  unfold jsParseDec
  rw [takeWhile_of_forall (c0 :: rest) h, dropWhile_of_forall (c0 :: rest) h]
  simp [natDigits]

/-- `Number(String(n)) = n` for a natural number `n`. -/
lemma jsStrToNum_natToDec (n : Nat) :
    jsStrToNum (String.mk (natToDec n)) = .num (n : Rat) := by
  have h := jsStrToNumL_digits (natToDec n) (natToDec_ne_nil n) (natToDec_all_digit n)
  rw [natToDec_digits n] at h
  exact h

/-- `String(n)` of a (cast) natural number is its decimal digit string. -/
lemma jsNumToString_natCast (m : Nat) :
    jsNumToString (.num (m : Rat)) = String.mk (natToDec m) := by
  simp only [jsNumToString]
  rw [if_pos (Rat.den_natCast m), if_neg (by simp)]
  simp

/-! ## Lemmas: lookups in a serialized query -/

lemma getParam_filtersToQuery_location (f : Filters) :
    getParam (filtersToQuery f) "location" =
      if f.location = "" then none else some f.location := by
  unfold filtersToQuery
  split_ifs with h1 h2 h3 h4 h5 h6 <;>
    simp_all [getParam_setParam_self, getParam_setParam_ne, getParam]

lemma getParam_filtersToQuery_minPrice (f : Filters) :
    getParam (filtersToQuery f) "minPrice" =
      if f.minPrice.truthy then some (jsNumToString f.minPrice) else none := by
  unfold filtersToQuery
  split_ifs with h1 h2 h3 h4 h5 h6 <;>
    simp_all [getParam_setParam_self, getParam_setParam_ne, getParam]

lemma getParam_filtersToQuery_maxPrice (f : Filters) :
    getParam (filtersToQuery f) "maxPrice" =
      if f.maxPrice.truthy then some (jsNumToString f.maxPrice) else none := by
  unfold filtersToQuery
  split_ifs with h1 h2 h3 h4 h5 h6 <;>
    simp_all [getParam_setParam_self, getParam_setParam_ne, getParam]

lemma getParam_filtersToQuery_bedrooms (f : Filters) :
    getParam (filtersToQuery f) "bedrooms" =
      if f.bedrooms.truthy then some (jsNumToString f.bedrooms) else none := by
  unfold filtersToQuery
  split_ifs with h1 h2 h3 h4 h5 h6 <;>
    simp_all [getParam_setParam_self, getParam_setParam_ne, getParam]

lemma getParam_filtersToQuery_showAll (f : Filters) :
    getParam (filtersToQuery f) "showAllStatuses" =
      if f.showAllStatuses then some "true" else none := by
  unfold filtersToQuery
  split_ifs with h1 h2 h3 h4 h5 h6 <;>
    simp_all [getParam_setParam_self, getParam_setParam_ne, getParam]

/-! ## Claim C5 -/

/-- Claim C5: serializing a filter state made of a string location,
non-negative integer minimum price, maximum price and bedroom count, and a
boolean status toggle with `filtersToQuery` and parsing the result with
`parseFiltersFromSearchParams` yields the same filter state. -/
theorem filters_query_roundtrip (loc : String) (m M beds : Nat) (s : Bool) :
    parseFiltersFromSearchParams (filtersToQuery
      { location := loc, minPrice := .num (m : Rat), maxPrice := .num (M : Rat),
        bedrooms := .num (beds : Rat), showAllStatuses := s }) =
      { location := loc, minPrice := .num (m : Rat), maxPrice := .num (M : Rat),
        bedrooms := .num (beds : Rat), showAllStatuses := s } := by
  unfold parseFiltersFromSearchParams
  simp only [Filters.mk.injEq]
  refine ⟨?_, ?_, ?_, ?_, ?_⟩
  · by_cases hl : loc = "" <;>
      simp [getParam_filtersToQuery_location, hl, jsStrOrEmpty]
  · by_cases hm : m = 0
    · subst hm
      simp [getParam_filtersToQuery_minPrice, JSNum.truthy, jsNumberOfOpt, jsOr0]
    · have hm' : ((m : Rat)) ≠ 0 := Nat.cast_ne_zero.2 hm
      simp [getParam_filtersToQuery_minPrice, JSNum.truthy, hm', jsNumberOfOpt,
        jsNumToString_natCast, jsStrToNum_natToDec, jsOr0]
  · by_cases hM : M = 0
    · subst hM
      simp [getParam_filtersToQuery_maxPrice, JSNum.truthy, jsNumberOfOpt, jsOr0]
    · have hM' : ((M : Rat)) ≠ 0 := Nat.cast_ne_zero.2 hM
      simp [getParam_filtersToQuery_maxPrice, JSNum.truthy, hM', jsNumberOfOpt,
        jsNumToString_natCast, jsStrToNum_natToDec, jsOr0]
  · by_cases hb : beds = 0
    · subst hb
      simp [getParam_filtersToQuery_bedrooms, JSNum.truthy, jsNumberOfOpt, jsOr0]
    · have hb' : ((beds : Rat)) ≠ 0 := Nat.cast_ne_zero.2 hb
      simp [getParam_filtersToQuery_bedrooms, JSNum.truthy, hb', jsNumberOfOpt,
        jsNumToString_natCast, jsStrToNum_natToDec, jsOr0]
  · cases s <;> simp [getParam_filtersToQuery_showAll]

/-! ## Claim C9 -/

/-- Claim C9: `parseFiltersFromSearchParams` is total (it is a Lean function,
so it returns a filter state on every parameter list, however malformed or
duplicated — `getParam` reads the first occurrence of a key) and defaults
malformed input: a missing or non-numeric (`Number(...)` is NaN) `minPrice`,
`maxPrice` or `bedrooms` parses to 0, a missing `location` parses to the
empty string, and `showAllStatuses` is true exactly when the parameter value
is the string `true`. -/
theorem parse_query_total_defaults (params : Params) :
    ((getParam params "minPrice" = none ∨
        ∃ v, getParam params "minPrice" = some v ∧ jsStrToNum v = .nan) →
      (parseFiltersFromSearchParams params).minPrice = .num 0) ∧
    ((getParam params "maxPrice" = none ∨
        ∃ v, getParam params "maxPrice" = some v ∧ jsStrToNum v = .nan) →
      (parseFiltersFromSearchParams params).maxPrice = .num 0) ∧
    ((getParam params "bedrooms" = none ∨
        ∃ v, getParam params "bedrooms" = some v ∧ jsStrToNum v = .nan) →
      (parseFiltersFromSearchParams params).bedrooms = .num 0) ∧
    (getParam params "location" = none →
      (parseFiltersFromSearchParams params).location = "") ∧
    ((parseFiltersFromSearchParams params).showAllStatuses = true ↔
      getParam params "showAllStatuses" = some "true") := by
  refine ⟨?_, ?_, ?_, ?_, ?_⟩
  · rintro (hnone | ⟨v, hv, hnan⟩)
    · simp [parseFiltersFromSearchParams, hnone, jsNumberOfOpt, jsOr0, JSNum.truthy]
    · simp [parseFiltersFromSearchParams, hv, jsNumberOfOpt, hnan, jsOr0, JSNum.truthy]
  · rintro (hnone | ⟨v, hv, hnan⟩)
    · simp [parseFiltersFromSearchParams, hnone, jsNumberOfOpt, jsOr0, JSNum.truthy]
    · simp [parseFiltersFromSearchParams, hv, jsNumberOfOpt, hnan, jsOr0, JSNum.truthy]
  · rintro (hnone | ⟨v, hv, hnan⟩)
    · simp [parseFiltersFromSearchParams, hnone, jsNumberOfOpt, jsOr0, JSNum.truthy]
    · simp [parseFiltersFromSearchParams, hv, jsNumberOfOpt, hnan, jsOr0, JSNum.truthy]
  · intro h
    simp [parseFiltersFromSearchParams, h, jsStrOrEmpty]
  · simp [parseFiltersFromSearchParams, beq_iff_eq]

/-- Witness for `parse_query_total_defaults` at concrete inputs: a
non-numeric `minPrice` parses to 0 and a missing `location` to `""` (with
`showAllStatuses=TRUE` not being the lowercase string `true`). -/
theorem parse_query_total_defaults_witness :
    (parseFiltersFromSearchParams
      [("minPrice", "abc"), ("showAllStatuses", "TRUE")]).minPrice = .num 0 ∧
    (parseFiltersFromSearchParams
      [("minPrice", "abc"), ("showAllStatuses", "TRUE")]).location = "" :=
  ⟨(parse_query_total_defaults [("minPrice", "abc"), ("showAllStatuses", "TRUE")]).1
      (Or.inr ⟨"abc", by decide, by decide⟩),
   (parse_query_total_defaults [("minPrice", "abc"), ("showAllStatuses", "TRUE")]).2.2.2.1
      (by decide)⟩

end ProperView
